import Mathlib

/-!
Shallow embedding of `examples/server.rs` from the bluez-zbus repository:
the BlueZ pairing-agent dispatcher (`main`), the confirmation surface
(`App` with its `update` handler), and the surface launcher (`launch_ui`)
with its calloop event callback that writes the operator's decision into a
tokio oneshot channel.

External effects (the zbus connection, the device lookup, the bus replies)
are modelled as explicit per-request environment values; a Rust `unwrap`
on a `None`/`Err` value is modelled as the `panicked` outcome.
-/

namespace BluezServer

/-- Messages delivered by `bluez_zbus::agent1` to the dispatch loop
(the `Message` enum matched in `main`, server.rs lines 72-103).
`RequestConfirmation` carries the numeric passkey shown to the operator. -/
inductive BMessage where
  | RequestAuthorization
  | RequestConfirmation (passkey : Nat)
  | RequestPasskey
  | RequestPinCode
  | AuthorizeService
  | Cancel
  | DisplayPasskey
  | DisplayPinCode
  | Release
deriving DecidableEq, Repr

/-- UI button message (`enum Message { Confirm, Cancel }`, server.rs lines 134-138). -/
inductive UiMessage where
  | Confirm
  | Cancel
deriving DecidableEq, Repr

/-- App-level channel message (`enum AppMessage { ConfirmPasskey, Cancel }`,
server.rs lines 114-118). -/
inductive AppMessage where
  | ConfirmPasskey
  | Cancel
deriving DecidableEq, Repr

/-- `AppParams` handed to `XdgWindow::open_blocking` (server.rs lines 120-125).
The channel sender is modelled by presence only. -/
structure AppParams where
  app_channel : Option Unit
  device_name : String
  passkey : String

/-- `AppState` (server.rs lines 127-132). -/
structure AppState where
  app_channel : Option Unit
  device_name : String
  passkey : String

/-- `Component::init` for `App` (server.rs lines 146-152). -/
def App.init : AppState :=
  ⟨none, "", ""⟩

/-- `RootComponent::root` (server.rs lines 228-234): copies the params into
the component state. -/
def App.root (params : AppParams) (_s : AppState) : AppState :=
  ⟨params.app_channel, params.device_name, params.passkey⟩

/-- `Component::update` for `App` (server.rs lines 205-224). The argument is
the downcast of the dynamic message (`none` models a failed downcast, the
catch-all `_ => ()` arm); the result is the list of `AppMessage`s sent on
`app_channel`. Both `Message::Confirm` (line 213) and `Message::Cancel`
(line 218) send `AppMessage::ConfirmPasskey`. -/
def App.update (s : AppState) : Option UiMessage → List AppMessage
  | some UiMessage.Confirm =>
      match s.app_channel with
      | some _ => [AppMessage.ConfirmPasskey]
      | none => []
  | some UiMessage.Cancel =>
      match s.app_channel with
      | some _ => [AppMessage.ConfirmPasskey]
      | none => []
  | none => []

/-- Result of a computation that may abort with a Rust panic
(an `unwrap` applied to `None` or `Err`). -/
inductive Panics (α : Type) where
  | panicked
  | value (a : α)
deriving DecidableEq, Repr

/-- State threaded through `launch_ui`'s calloop callback (server.rs lines
281-298): `agent_tx` is the captured `Option<oneshot::Sender<bool>>` (taken
on first use), `sent` is the value held by the oneshot channel, `exited`
records that `exit(window_tx)` was requested. -/
structure UiLoopState where
  agent_tx : Option Unit
  sent : Option Bool
  exited : Bool
deriving DecidableEq, Repr

/-- One calloop channel event inside `launch_ui` (server.rs lines 284-293):
`AppMessage::Cancel` sends `false`, `AppMessage::ConfirmPasskey` sends
`true`, each through `agent_tx.take().unwrap().send(..)` — which panics
when the sender was already taken by an earlier event — then requests the
window to close. -/
def handleAppEvent (s : UiLoopState) : AppMessage → Panics UiLoopState
  | AppMessage.Cancel =>
      match s.agent_tx with
      | none => Panics.panicked
      | some _ => Panics.value ⟨none, some false, true⟩
  | AppMessage.ConfirmPasskey =>
      match s.agent_tx with
      | none => Panics.panicked
      | some _ => Panics.value ⟨none, some true, true⟩

/-- The event loop delivers every queued channel event to the callback: a
single `event_loop.dispatch` drains all ready events, so a message queued
behind the first one is still handled even though the first handler already
requested exit (server.rs lines 300-306). -/
def runAppEvents (s : UiLoopState) : List AppMessage → Panics UiLoopState
  | [] => Panics.value s
  | m :: ms =>
      match handleAppEvent s m with
      | Panics.panicked => Panics.panicked
      | Panics.value s2 => runAppEvents s2 ms

/-- `launch_ui` (server.rs lines 237-309): opens the window with `AppParams`
carrying the channel sender, the device name and the passkey text, then
runs the event loop. `presses` is the sequence of dynamic UI messages the
operator produces (each mapped through `App.update` to the `AppMessage`s
sent on `app_channel`); the callback starts with the oneshot sender
available and nothing written. -/
def launch_ui (device_name passkey : String) (presses : List (Option UiMessage)) :
    Panics UiLoopState :=
  let st := App.root ⟨some (), device_name, passkey⟩ App.init
  runAppEvents ⟨some (), none, false⟩ (presses.map (App.update st)).flatten

/-- An error carried by `anyhow`/`zbus` results, modelled by its message. -/
abbrev BusError := String

/-- Per-request external environment for the `RequestConfirmation` arm of the
dispatch loop (server.rs lines 76-87): the result of
`zbus::Connection::system()` (line 82, followed by `?`), of
`bluez_zbus::get_device` (line 83, followed by `.unwrap()`), of
`device.device.name()` (line 84, followed by `.unwrap()`), the operator
input delivered to the launched surface, and whether the remote end of
`response` is still waiting so that `response.send` succeeds (its result is
discarded by `_ =` either way). -/
structure ConfirmEnv where
  connection : Except BusError Unit
  get_device : Except BusError Unit
  device_name : Except BusError String
  presses : List (Option UiMessage)
  sendOk : Bool

/-- A value handed to `response.send`: a boolean for
authorization/confirmation requests, `None` for passkey/pincode requests. -/
inductive ReplyVal where
  | answer (b : Bool)
  | noAnswer
deriving DecidableEq, Repr

/-- How one iteration of the dispatch loop ends. -/
inductive StepResult where
  | replied (r : ReplyVal)
  | noReply
  | panicked
  | errored (e : BusError)
deriving DecidableEq, Repr

/-- Outcome of one iteration: its result and whether `launch_ui` was called. -/
structure StepOutcome where
  result : StepResult
  uiLaunched : Bool
deriving DecidableEq, Repr

/-- One iteration of the `match msg` in `main`'s dispatch loop (server.rs
lines 72-103). `RequestAuthorization` sends `true`; `RequestConfirmation`
opens a system connection (`?` propagates its error), unwraps the device
lookup and the name lookup (panicking on `Err`), launches the surface,
then unwraps `agent_rx.await` (panicking when the sender was dropped
without a send) and forwards the received boolean; `RequestPasskey` and
`RequestPinCode` send `None`; the remaining variants do nothing. -/
def handle_message (env : ConfirmEnv) : BMessage → StepOutcome
  | BMessage.RequestAuthorization =>
      ⟨StepResult.replied (ReplyVal.answer true), false⟩
  | BMessage.RequestConfirmation passkey =>
      match env.connection with
      | Except.error e => ⟨StepResult.errored e, false⟩
      | Except.ok _ =>
        match env.get_device with
        | Except.error _ => ⟨StepResult.panicked, false⟩
        | Except.ok _ =>
          match env.device_name with
          | Except.error _ => ⟨StepResult.panicked, false⟩
          | Except.ok name =>
            match launch_ui name (toString passkey) env.presses with
            | Panics.panicked => ⟨StepResult.panicked, true⟩
            | Panics.value s =>
              match s.sent with
              | none => ⟨StepResult.panicked, true⟩
              | some b => ⟨StepResult.replied (ReplyVal.answer b), true⟩
  | BMessage.RequestPasskey => ⟨StepResult.replied ReplyVal.noAnswer, false⟩
  | BMessage.RequestPinCode => ⟨StepResult.replied ReplyVal.noAnswer, false⟩
  | BMessage.AuthorizeService => ⟨StepResult.noReply, false⟩
  | BMessage.Cancel => ⟨StepResult.noReply, false⟩
  | BMessage.DisplayPasskey => ⟨StepResult.noReply, false⟩
  | BMessage.DisplayPinCode => ⟨StepResult.noReply, false⟩
  | BMessage.Release => ⟨StepResult.noReply, false⟩

/-- How the `while let Some(msg) = receiver.recv()` loop ends: the stream
closed normally, an `unwrap` panicked, or a `?` propagated an error. -/
inductive LoopExit where
  | normalEnd
  | panicked
  | errored (e : BusError)
deriving DecidableEq, Repr

/-- The dispatch loop (server.rs lines 69-104) over the sequence of received
messages, each with its per-request environment: the replies handed to
`response.send`, in emission order, and how the loop ends. A panic or a
propagated error stops consumption at that message. -/
def dispatch_loop : List (BMessage × ConfirmEnv) → List ReplyVal × LoopExit
  | [] => ([], LoopExit.normalEnd)
  | (m, env) :: rest =>
      match (handle_message env m).result with
      | StepResult.replied r =>
          (r :: (dispatch_loop rest).1, (dispatch_loop rest).2)
      | StepResult.noReply => dispatch_loop rest
      | StepResult.panicked => ([], LoopExit.panicked)
      | StepResult.errored e => ([], LoopExit.errored e)

/-- Results of the startup calls in `main` (server.rs lines 39-65):
`zbus::Connection::system()` (line 39), `object_server().at(..)` (line 47),
`AgentManager1Proxy::new` (line 51), `register_agent` (lines 55-60), and
`request_default_agent` (line 62). -/
structure StartupEnv where
  systemConn : Except BusError Unit
  objectServerAt : Except BusError Unit
  proxyNew : Except BusError Unit
  registerAgent : Except BusError Unit
  requestDefault : Except BusError Unit

/-- How the process exits `main`: `Ok(())`, an `Err` propagated by `?`, or
a panic. -/
inductive MainExit where
  | okExit
  | errExit (e : BusError)
  | panicExit
deriving DecidableEq, Repr

/-- Observable trace of one run of `main`: whether `register_agent`
succeeded on the bus, how many times `unregister_agent` was invoked (its
result is discarded by `_ =`), how `main` exited, and the replies sent. -/
structure MainTrace where
  registered : Bool
  unregisterAttempts : Nat
  exit : MainExit
  replies : List ReplyVal
deriving DecidableEq, Repr

/-- `main` (server.rs lines 16-111): each startup failure propagates out via
`?`; a `request_default_agent` failure first calls `unregister_agent`
(lines 62-65); then the dispatch loop runs, and only its normal end reaches
the `unregister_agent` call at line 106 — a panic or a `?`-propagated error
inside the loop exits without it. -/
def main_run (se : StartupEnv) (msgs : List (BMessage × ConfirmEnv)) : MainTrace :=
  match se.systemConn with
  | Except.error e => ⟨false, 0, MainExit.errExit e, []⟩
  | Except.ok _ =>
  match se.objectServerAt with
  | Except.error e => ⟨false, 0, MainExit.errExit e, []⟩
  | Except.ok _ =>
  match se.proxyNew with
  | Except.error e => ⟨false, 0, MainExit.errExit e, []⟩
  | Except.ok _ =>
  match se.registerAgent with
  | Except.error e => ⟨false, 0, MainExit.errExit e, []⟩
  | Except.ok _ =>
  match se.requestDefault with
  | Except.error e => ⟨true, 1, MainExit.errExit e, []⟩
  | Except.ok _ =>
    match (dispatch_loop msgs).2 with
    | LoopExit.normalEnd => ⟨true, 1, MainExit.okExit, (dispatch_loop msgs).1⟩
    | LoopExit.panicked => ⟨true, 0, MainExit.panicExit, (dispatch_loop msgs).1⟩
    | LoopExit.errored e => ⟨true, 0, MainExit.errExit e, (dispatch_loop msgs).1⟩

/-- Whether one iteration of the dispatch loop lets the loop continue. -/
def stepOk (p : BMessage × ConfirmEnv) : Bool :=
  match (handle_message p.2 p.1).result with
  | StepResult.replied _ => true
  | StepResult.noReply => true
  | StepResult.panicked => false
  | StepResult.errored _ => false

/-- The reply one iteration of the dispatch loop emits, when it emits one. -/
def stepReply (p : BMessage × ConfirmEnv) : Option ReplyVal :=
  match (handle_message p.2 p.1).result with
  | StepResult.replied r => some r
  | _ => none

/-- The decision value the calloop callback writes for an `AppMessage`:
`false` for `Cancel`, `true` for `ConfirmPasskey`. -/
def appDecision : AppMessage → Bool
  | AppMessage.Cancel => false
  | AppMessage.ConfirmPasskey => true

/-- C1: on a `RequestConfirmation`, when the operator presses the Cancel
button (the dynamic `Message::Cancel`), the dispatcher replies `true`
(accept), because `App::update` routes `Message::Cancel` to
`AppMessage::ConfirmPasskey`, whose handler sends `true`. The claim says
the bus receives `false`. -/
theorem C1_cancel_press_replies_accept :
    handle_message
        ⟨Except.ok (), Except.ok (), Except.ok "Pixel Buds",
          [some UiMessage.Cancel], true⟩
        (BMessage.RequestConfirmation 482931)
      = ⟨StepResult.replied (ReplyVal.answer true), true⟩ := by
  rfl

/-- C2 counterexample: two button presses queue two channel events; the
second event's `agent_tx.take().unwrap()` finds `None` and panics, so a
second write attempt is a crash, not a silently dropped no-op. -/
theorem C2_second_press_panics :
    launch_ui "Pixel Buds" "482931"
        [some UiMessage.Confirm, some UiMessage.Confirm]
      = Panics.panicked := by
  rfl

/-- C2 amended: the first write settles the channel (the value received is
the first event's decision and the sender is consumed), but any further
queued event panics the callback on `agent_tx.take().unwrap()` instead of
being silently dropped. -/
theorem C2_first_write_wins_second_panics :
    (∀ m : AppMessage,
        runAppEvents ⟨some (), none, false⟩ [m]
          = Panics.value ⟨none, some (appDecision m), true⟩)
      ∧ ∀ (m m2 : AppMessage) (ms : List AppMessage),
          runAppEvents ⟨some (), none, false⟩ (m :: m2 :: ms) = Panics.panicked := by
  constructor
  · intro m
    cases m <;> rfl
  · intro m m2 ms
    cases m <;> cases m2 <;> rfl

/-- C3 counterexample: when the surface terminates without any press (no
write to the oneshot channel), the dispatcher's `agent_rx.await.unwrap()`
panics — the outcome is a crash, not a `false` reply. -/
theorem C3_surface_exit_without_decision_panics :
    handle_message
        ⟨Except.ok (), Except.ok (), Except.ok "Pixel Buds", [], true⟩
        (BMessage.RequestConfirmation 482931)
      = ⟨StepResult.panicked, true⟩ := by
  rfl

/-- C3 amended: for every device name, send state and passkey, if the
surface terminates without writing a decision, the dispatcher panics on
`agent_rx.await.unwrap()`; it never hangs and never replies accept — but it
crashes rather than replying reject. -/
theorem C3_amended_unwritten_channel_panics (name : String) (sendOk : Bool) (pk : Nat) :
    handle_message ⟨Except.ok (), Except.ok (), Except.ok name, [], sendOk⟩
        (BMessage.RequestConfirmation pk)
      = ⟨StepResult.panicked, true⟩ :=
  rfl

/-- C4 counterexample: with a fully successful startup, a single
`RequestConfirmation` whose per-request `zbus::Connection::system()` fails
makes the `?` at server.rs line 82 propagate the error out of the loop, and
`main` exits with zero `unregister_agent` calls — teardown is skipped on
this exit route. -/
theorem C4_error_exit_skips_unregister :
    main_run ⟨Except.ok (), Except.ok (), Except.ok (), Except.ok (), Except.ok ()⟩
        [(BMessage.RequestConfirmation 482931,
          ⟨Except.error "connection failed", Except.ok (), Except.ok "Pixel Buds",
            [], true⟩)]
      = ⟨true, 0, MainExit.errExit "connection failed", []⟩ := by
  rfl

/-- C4 amended: after a successful startup, the agent is unregistered
exactly once when the event stream ends normally, but an error propagated
out of the request loop by `?` exits `main` without any unregister call. -/
theorem C4_amended_teardown_only_on_normal_end (se : StartupEnv)
    (msgs : List (BMessage × ConfirmEnv))
    (h1 : se.systemConn = Except.ok ()) (h2 : se.objectServerAt = Except.ok ())
    (h3 : se.proxyNew = Except.ok ()) (h4 : se.registerAgent = Except.ok ())
    (h5 : se.requestDefault = Except.ok ()) :
    ((dispatch_loop msgs).2 = LoopExit.normalEnd →
        (main_run se msgs).unregisterAttempts = 1
          ∧ (main_run se msgs).exit = MainExit.okExit)
      ∧ ∀ e : BusError, (dispatch_loop msgs).2 = LoopExit.errored e →
          (main_run se msgs).unregisterAttempts = 0
            ∧ (main_run se msgs).exit = MainExit.errExit e := by
  constructor
  · intro h
    simp [main_run, h1, h2, h3, h4, h5, h]
  · intro e h
    simp [main_run, h1, h2, h3, h4, h5, h]

/-- C4 witness: at a concrete successful startup with an empty event
stream, the dispatcher exits normally and unregisters once. -/
theorem C4_amended_witness :
    (main_run ⟨Except.ok (), Except.ok (), Except.ok (), Except.ok (), Except.ok ()⟩
        []).unregisterAttempts = 1 := by
  have h := C4_amended_teardown_only_on_normal_end
      ⟨Except.ok (), Except.ok (), Except.ok (), Except.ok (), Except.ok ()⟩
      [] rfl rfl rfl rfl rfl
  exact (h.1 rfl).1

/-- C5 counterexample: a failing device-name lookup makes the dispatcher
panic on `.unwrap()` — the request is never answered, and no placeholder
name is substituted. -/
theorem C5_lookup_failure_no_reply :
    handle_message
        ⟨Except.ok (), Except.ok (), Except.error "device vanished",
          [some UiMessage.Confirm], true⟩
        (BMessage.RequestConfirmation 482931)
      = ⟨StepResult.panicked, false⟩ := by
  rfl

/-- C5 amended: for every `RequestConfirmation`, a failure of either the
device lookup (`get_device(..).unwrap()`) or the name lookup
(`name().await.unwrap()`) panics the dispatcher before any surface is
launched; the request is never answered. -/
theorem C5_amended_lookup_failure_panics (e : BusError)
    (dn : Except BusError String) (presses : List (Option UiMessage))
    (sendOk : Bool) (pk : Nat) :
    handle_message ⟨Except.ok (), Except.error e, dn, presses, sendOk⟩
        (BMessage.RequestConfirmation pk) = ⟨StepResult.panicked, false⟩
      ∧ handle_message ⟨Except.ok (), Except.ok (), Except.error e, presses, sendOk⟩
          (BMessage.RequestConfirmation pk) = ⟨StepResult.panicked, false⟩ :=
  ⟨rfl, rfl⟩

/-- C6: when every startup call up to registration succeeds and
`request_default_agent` fails, `main` calls `unregister_agent` once and
then surfaces that error, so no agent remains registered. -/
theorem C6_default_agent_failure_unregisters (se : StartupEnv)
    (msgs : List (BMessage × ConfirmEnv)) (e : BusError)
    (h1 : se.systemConn = Except.ok ()) (h2 : se.objectServerAt = Except.ok ())
    (h3 : se.proxyNew = Except.ok ()) (h4 : se.registerAgent = Except.ok ())
    (h5 : se.requestDefault = Except.error e) :
    main_run se msgs = ⟨true, 1, MainExit.errExit e, []⟩ := by
  simp [main_run, h1, h2, h3, h4, h5]

/-- C6 witness: a concrete startup whose make-default call fails ends with
one unregister attempt and the error surfaced. -/
theorem C6_witness :
    main_run ⟨Except.ok (), Except.ok (), Except.ok (), Except.ok (),
        Except.error "busy"⟩ []
      = ⟨true, 1, MainExit.errExit "busy", []⟩ :=
  C6_default_agent_failure_unregisters
    ⟨Except.ok (), Except.ok (), Except.ok (), Except.ok (), Except.error "busy"⟩
    [] "busy" rfl rfl rfl rfl rfl

/-- C7 counterexample: a device-name-lookup failure on the first request
panics and aborts the dispatch loop — the following `RequestAuthorization`
is never consumed and its reply is never sent, contradicting that such
errors are contained to a single request. -/
theorem C7_lookup_failure_aborts_loop :
    dispatch_loop
        [(BMessage.RequestConfirmation 482931,
          ⟨Except.ok (), Except.ok (), Except.error "device vanished", [], true⟩),
         (BMessage.RequestAuthorization,
          ⟨Except.ok (), Except.ok (), Except.ok "", [], true⟩)]
      = ([], LoopExit.panicked) := by
  rfl

/-- C7 amended: a reply-send failure is contained — the send result is
discarded and the loop continues with the remaining events exactly as on a
successful send; a device-name-lookup failure, however, panics and aborts
the loop. -/
theorem C7_amended_send_contained_lookup_fatal :
    (∀ (m : BMessage) (env : ConfirmEnv) (rest : List (BMessage × ConfirmEnv))
        (r : ReplyVal),
        env.sendOk = false →
        (handle_message env m).result = StepResult.replied r →
        dispatch_loop ((m, env) :: rest)
          = (r :: (dispatch_loop rest).1, (dispatch_loop rest).2))
      ∧ ∀ (pk : Nat) (env : ConfirmEnv) (rest : List (BMessage × ConfirmEnv))
          (e : BusError),
          env.connection = Except.ok () → env.get_device = Except.ok () →
          env.device_name = Except.error e →
          dispatch_loop ((BMessage.RequestConfirmation pk, env) :: rest)
            = ([], LoopExit.panicked) := by
  constructor
  · intro m env rest r _ h
    simp [dispatch_loop, h]
  · intro pk env rest e hc hg hd
    have hres : (handle_message env (BMessage.RequestConfirmation pk)).result
        = StepResult.panicked := by
      simp [handle_message, hc, hg, hd]
    simp [dispatch_loop, hres]

/-- C7 witness: a concrete `RequestAuthorization` whose remote gave up on
the reply still lets the loop run to its normal end. -/
theorem C7_amended_witness :
    dispatch_loop
        [(BMessage.RequestAuthorization,
          ⟨Except.ok (), Except.ok (), Except.ok "", [], false⟩)]
      = ([ReplyVal.answer true], LoopExit.normalEnd) := by
  have h := C7_amended_send_contained_lookup_fatal.1 BMessage.RequestAuthorization
      ⟨Except.ok (), Except.ok (), Except.ok "", [], false⟩ [] (ReplyVal.answer true)
      rfl rfl
  simpa [dispatch_loop] using h

/-- C8: the dispatch loop is strictly sequential, so the reply stream is
exactly the per-request replies of the longest prefix of requests processed
without a panic or propagated error, in arrival order. -/
theorem C8_replies_in_arrival_order (reqs : List (BMessage × ConfirmEnv)) :
    (dispatch_loop reqs).1 = (reqs.takeWhile stepOk).filterMap stepReply := by
  induction reqs with
  | nil => rfl
  | cons p rest ih =>
    obtain ⟨m, env⟩ := p
    cases h : (handle_message env m).result with
    | replied r => simp [dispatch_loop, h, List.takeWhile_cons, stepOk, stepReply, ih]
    | noReply => simp [dispatch_loop, h, List.takeWhile_cons, stepOk, stepReply, ih]
    | panicked => simp [dispatch_loop, h, List.takeWhile_cons, stepOk, stepReply]
    | errored e => simp [dispatch_loop, h, List.takeWhile_cons, stepOk, stepReply]

/-- C9: every `RequestAuthorization` is answered immediately with `true`
and no interactive surface is launched, whatever the per-request
environment. -/
theorem C9_authorization_immediate_accept (env : ConfirmEnv) :
    handle_message env BMessage.RequestAuthorization
      = ⟨StepResult.replied (ReplyVal.answer true), false⟩ :=
  rfl

/-- C10: every `RequestPasskey` and every `RequestPinCode` is answered
immediately with `None` and no interactive surface is launched, whatever
the per-request environment. -/
theorem C10_passkey_pincode_no_answer (env : ConfirmEnv) :
    handle_message env BMessage.RequestPasskey
        = ⟨StepResult.replied ReplyVal.noAnswer, false⟩
      ∧ handle_message env BMessage.RequestPinCode
          = ⟨StepResult.replied ReplyVal.noAnswer, false⟩ :=
  ⟨rfl, rfl⟩

end BluezServer
